import Mathlib

/-!
Verification development for the travel-ai-platform worker pipeline.

This file gives a shallow embedding, in Lean, of the parts of the code that
the specification claims talk about:

* the chat-to-anchors extraction of
  `worker-service/app/modules/context_manager.py` (Python `re` patterns are
  embedded through a small backtracking matcher with Python search semantics:
  leftmost start, left-biased alternation, greedy/lazy bounded repetition,
  word boundaries and lookahead);
* the geoscope fill/discard step and the long-term-memory step of
  `ContextManager.build_context`;
* the vector-store upsert of `db-service/app/clients/vector_db_client.py`;
* the enum clamping of `worker-service/app/models/normalized_trip.py`;
* the day/budget normalization of `worker-service/app/modules/request_handler.py`;
* the plan generation of `worker-service/app/modules/llm_module.py`
  (Gemini post-processing over a JSON value type, plus the rule-based
  fallback planner);
* the control flow of `TripOrchestrator.process_trip_request`.

Machine integers are embedded as `Int`/`Nat` (the Python values involved are
small and unbounded), Python `None`/falsiness as `Option` plus explicit
truthiness helpers, and collaborator calls as explicit oracle values.
-/

/-! ## Python string helpers -/

def isSpaceCh (c : Char) : Bool :=
  c = ' ' || c = '\t' || c = '\n' || c = '\r' || c = '\x0b' || c = '\x0c'

def isWordCh (c : Char) : Bool :=
  ('A' ≤ c && c ≤ 'Z') || ('a' ≤ c && c ≤ 'z') || ('0' ≤ c && c ≤ '9') || c = '_'

def isAlphaCh (c : Char) : Bool :=
  ('A' ≤ c && c ≤ 'Z') || ('a' ≤ c && c ≤ 'z')

/-- Python `str.lower()` (ASCII). -/
def pyLower (s : String) : String := String.mk (s.data.map Char.toLower)

/-- Python `str.strip()` with no argument: strip whitespace at both ends. -/
def pyStripWs (s : String) : String :=
  String.mk (((s.data.dropWhile isSpaceCh).reverse.dropWhile isSpaceCh).reverse)

/-- Python `str.strip(chars)`: strip any of the given characters at both ends. -/
def pyStripSet (s : String) (bad : List Char) : String :=
  String.mk (((s.data.dropWhile (fun c => bad.contains c)).reverse.dropWhile
    (fun c => bad.contains c)).reverse)

def pySplitGo : List Char → List Char → List String
  | [], acc => if acc = [] then [] else [String.mk acc.reverse]
  | c :: cs, acc =>
    if isSpaceCh c then
      (if acc = [] then pySplitGo cs [] else String.mk acc.reverse :: pySplitGo cs [])
    else pySplitGo cs (c :: acc)

/-- Python `str.split()` with no argument: split on whitespace runs, no empties. -/
def pySplit (s : String) : List String := pySplitGo s.data []

/-- Python `" ".join(s.split())`, also the effect of
`re.sub(r"\s+", " ", s).strip()`. -/
def normSpace (s : String) : String := String.intercalate " " (pySplit s)

/-- Digits of a decimal literal to a `Nat` (Python `int` on a digit string). -/
def natOfDigits (s : String) : Nat :=
  s.data.foldl (fun a c => a * 10 + (c.toNat - 48)) 0

/-- Python `f"\x7bn:02d\x7d"` formatting of a nonnegative number. -/
def pad2 (n : Nat) : String :=
  if n < 10 then "0" ++ toString n else toString n

/-- Python `a or b` on two optional strings (empty string is falsy). -/
def pyOrStr (a b : Option String) : Option String :=
  match a with
  | some s => if s = "" then b else some s
  | none => b

/-- Python truthiness of an optional string. -/
def pyTruthyStr (a : Option String) : Bool :=
  match a with
  | some s => s ≠ ""
  | none => false

def pyDictGet (d : List (String × String)) (k : String) : Option String :=
  (d.find? (fun kv => kv.1 == k)).map (fun kv => kv.2)

/-- Python `d[k] = v` on a string dict: update in place or append. -/
def pyDictSet (d : List (String × String)) (k v : String) : List (String × String) :=
  if d.any (fun kv => kv.1 == k) then
    d.map (fun kv => if kv.1 == k then (kv.1, v) else kv)
  else d ++ [(k, v)]

/-! ## A Python-`re` style backtracking matcher

The AST is repetition-free: bounded and unbounded quantifiers are expanded
into nested alternations before matching (unbounded ones up to the length of
the subject string, which is exact because every repeated sub-pattern in the
embedded regexes consumes at least one character per iteration).  Matching is
continuation-passing, which reproduces Python backtracking order: alternation
prefers its left branch, greedy expansion prefers longer, lazy expansion
prefers shorter, `re.search` picks the leftmost starting position. -/

inductive RE where
  | eps
  | cls (p : Char → Bool)
  | cat (a b : RE)
  | alt (a b : RE)
  | grp (i : Nat) (r : RE)
  | look (r : RE)
  | wb
  | eos

/-- Captured groups: index, rest-of-input at group start, rest at group end. -/
abbrev Groups := List (Nat × List Char × List Char)

def matchRE : RE → Option Char → List Char → Groups →
    (Option Char → List Char → Groups → Option (Option Char × List Char × Groups)) →
    Option (Option Char × List Char × Groups)
  | .eps, pv, rest, gs, k => k pv rest gs
  | .cls p, _, rest, gs, k =>
    match rest with
    | [] => none
    | c :: rs => if p c then k (some c) rs gs else none
  | .cat a b, pv, rest, gs, k =>
    matchRE a pv rest gs (fun pv2 r2 g2 => matchRE b pv2 r2 g2 k)
  | .alt a b, pv, rest, gs, k =>
    match matchRE a pv rest gs k with
    | some res => some res
    | none => matchRE b pv rest gs k
  | .grp i r, pv, rest, gs, k =>
    matchRE r pv rest gs (fun pv2 r2 g2 => k pv2 r2 ((i, rest, r2) :: g2))
  | .look r, pv, rest, gs, k =>
    match matchRE r pv rest gs (fun pv2 r2 g2 => some (pv2, r2, g2)) with
    | some (_, _, g2) => k pv rest g2
    | none => none
  | .wb, pv, rest, gs, k =>
    let a := match pv with
      | some c => isWordCh c
      | none => false
    let b := match rest with
      | c :: _ => isWordCh c
      | [] => false
    if a != b then k pv rest gs else none
  | .eos, pv, rest, gs, k =>
    match rest with
    | [] => k pv rest gs
    | [c] => if c = '\n' then k pv rest gs else none
    | _ => none

structure MatchRes where
  startRest : List Char
  endPrev : Option Char
  endRest : List Char
  groups : Groups

/-- Scan for the leftmost successful match, like `re.search`. -/
def searchLoop (re0 : RE) (pv : Option Char) (rest : List Char) (fuel : Nat) :
    Option MatchRes :=
  match matchRE re0 pv rest [] (fun pv2 r2 g2 => some (pv2, r2, g2)) with
  | some (pvE, rE, gs) => some ⟨rest, pvE, rE, gs⟩
  | none =>
    match fuel, rest with
    | _, [] => none
    | 0, _ => none
    | f + 1, c :: rs => searchLoop re0 (some c) rs f

def reSearch (mk : Nat → RE) (s : String) : Option MatchRes :=
  searchLoop (mk s.length) none s.data s.data.length

def reTest (mk : Nat → RE) (s : String) : Bool := (reSearch mk s).isSome

/-- Text of a captured group, `None` when the group did not participate. -/
def groupStr (gs : Groups) (i : Nat) : Option String :=
  match gs.find? (fun g => g.1 == i) with
  | some (_, a, b) => some (String.mk (a.take (a.length - b.length)))
  | none => none

/-! ### Pattern combinators (case-insensitive, as all source patterns use
`re.IGNORECASE`) -/

def rch (c : Char) : RE := RE.cls (fun x => x.toLower = c.toLower)

def rlit (s : String) : RE := (s.data.map rch).foldr RE.cat RE.eps

def rseq (l : List RE) : RE := l.foldr RE.cat RE.eps

def ralts : List RE → RE
  | [] => RE.cls (fun _ => false)
  | [x] => x
  | x :: xs => RE.alt x (ralts xs)

/-- Up to `n` further greedy repetitions of `r`. -/
def greedyMany : Nat → RE → RE
  | 0, _ => RE.eps
  | n + 1, r => RE.alt (RE.cat r (greedyMany n r)) RE.eps

/-- Up to `n` further lazy repetitions of `r`. -/
def lazyMany : Nat → RE → RE
  | 0, _ => RE.eps
  | n + 1, r => RE.alt RE.eps (RE.cat r (lazyMany n r))

/-- `r+` (greedy), bounded by `n` extra repetitions. -/
def rplus (n : Nat) (r : RE) : RE := RE.cat r (greedyMany n r)

/-- `r?` (greedy). -/
def ropt (r : RE) : RE := RE.alt r RE.eps

def spC : RE := RE.cls isSpaceCh
def digitC : RE := RE.cls (fun c => '0' ≤ c && c ≤ '9')
def alphaC : RE := RE.cls isAlphaCh

/-- The place-name character class `[A-Za-z\s\.-]`. -/
def placeC : RE := RE.cls (fun c => isAlphaCh c || isSpaceCh c || c = '.' || c = '-')

/-- The stop class `[.,!?\n]` of `_STOP_AFTER_PLACE`. -/
def punctStopC : RE := RE.cls (fun c => c = '.' || c = ',' || c = '!' || c = '?' || c = '\n')

/-! ### The context-manager patterns -/

/-- The phrase alternation inside `_STOP_AFTER_PLACE`. -/
def stopWordsRe (b : Nat) : RE :=
  ralts [rseq [rlit "one", rplus b spC, rlit "day"],
         rseq [rlit "same", rplus b spC, rlit "day"],
         rseq [rlit "day", rplus b spC, rlit "trip"],
         rlit "only", rlit "and",
         rseq [rlit "i", rplus b spC, rlit "want"],
         rlit "leave", rlit "return",
         rseq [rlit "come", rplus b spC, rlit "back"]]

/-- `_STOP_AFTER_PLACE`, the lookahead that ends a captured place name. -/
def stopLook (b : Nat) : RE :=
  RE.look (ralts [rseq [rplus b spC, stopWordsRe b, RE.wb], RE.eos, punctStopC])

/-- The lazy place capture `([A-Za-z][A-Za-z\s\.-]\x7b1,60\x7d?)` as group `i`. -/
def capPlace (i : Nat) : RE :=
  RE.grp i (rseq [alphaC, placeC, lazyMany 59 placeC])

/-- `_TO_FROM_RE`. -/
def toFromRe (b : Nat) : RE :=
  rseq [RE.wb, rlit "to", rplus b spC, capPlace 1, stopLook b,
        rplus b spC, rlit "from", rplus b spC, capPlace 2, stopLook b]

/-- `_FROM_TO_RE`. -/
def fromToRe (b : Nat) : RE :=
  rseq [RE.wb, rlit "from", rplus b spC, capPlace 1, stopLook b,
        rplus b spC, rlit "to", rplus b spC, capPlace 2, stopLook b]

/-- `_FROM_ONLY_RE`. -/
def fromOnlyRe (b : Nat) : RE :=
  rseq [RE.wb, rlit "from", rplus b spC, capPlace 1, stopLook b]

/-- `_TO_ONLY_RE`. -/
def toOnlyRe (b : Nat) : RE :=
  rseq [RE.wb, rlit "to", rplus b spC, capPlace 1, stopLook b]

/-- `_IN_ONLY_RE`. -/
def inOnlyRe (b : Nat) : RE :=
  rseq [RE.wb, rlit "in", rplus b spC, capPlace 1, stopLook b]

/-- `_FOR_ONLY_RE`. -/
def forOnlyRe (b : Nat) : RE :=
  rseq [RE.wb, rlit "for", rplus b spC, capPlace 1, stopLook b]

/-- `_VISIT_RE`. -/
def visitRe (b : Nat) : RE :=
  rseq [RE.wb, rlit "visit", rplus b spC, capPlace 1, stopLook b]

/-- `_TIME_RE`. -/
def timeRe (b : Nat) : RE :=
  rseq [RE.wb,
        ralts [rlit "leave", rlit "leaving", rlit "depart", rlit "departing"],
        greedyMany b spC, ropt (rlit "at"), greedyMany b spC,
        RE.grp 1 (RE.cat digitC (greedyMany 1 digitC)),
        ropt (rseq [rch ':', RE.grp 2 (rseq [digitC, digitC])]),
        greedyMany b spC,
        RE.grp 3 (ralts [rlit "am", rlit "pm"]),
        RE.wb]

/-- `_DURATION_DAYS_RE`. -/
def durationDaysRe (b : Nat) : RE :=
  rseq [RE.wb, RE.grp 1 (RE.cat digitC (greedyMany 1 digitC)),
        greedyMany b spC, ralts [rlit "day", rlit "days"], RE.wb]

/-- The travel-mode pattern of `_derive_anchors_from_chat`. -/
def travelModeRe (b : Nat) : RE :=
  rseq [RE.wb,
        ralts [rseq [rlit "by", rplus b spC, rlit "car"],
               rlit "drive", rlit "driving",
               rseq [rlit "road", greedyMany b spC, rlit "trip"]],
        RE.wb]

/-- The strong day-trip-signal pattern of `_derive_anchors_from_chat`. -/
def dayTripRe (b : Nat) : RE :=
  rseq [RE.wb,
        ralts [rseq [rlit "same", rplus b spC, rlit "night"],
               rseq [rlit "same", rplus b spC, rlit "day"],
               rseq [rlit "day", rplus b spC, rlit "trip"],
               rseq [rlit "back", rplus b spC, rlit "the", rplus b spC,
                     rlit "same", rplus b spC, rlit "night"]],
        RE.wb]

/-- `_INVALID_DEST_SNIPPETS`. -/
def invalidDestRe (b : Nat) : RE :=
  rseq [RE.wb,
        ralts [rseq [rlit "one", rplus b spC, rlit "day"],
               rseq [rlit "same", rplus b spC, rlit "day"],
               rseq [rlit "day", rplus b spC, rlit "trip"],
               rlit "only", rlit "leave", rlit "return",
               rseq [rlit "come", rplus b spC, rlit "back"]],
        RE.wb]

/-! ## Chat-to-anchors extraction (`context_manager.py`) -/

def trailingJunkWords : List String := ["only", "trip", "day", "one", "same"]

def badToTargets : List String :=
  ["leave", "go", "come", "drive", "driving", "depart", "return", "head", "start", "back"]

/-- `_clean_place`. -/
def cleanPlace (s : String) : String :=
  let s1 := pyStripSet s [' ', '.', ',', '-', '\n', '\t']
  let s2 := normSpace s1
  let parts := pySplit s2
  let parts2 := (parts.reverse.dropWhile
    (fun w => trailingJunkWords.contains (pyLower w))).reverse
  let s3 := String.intercalate " " parts2
  if ["trukkey", "trukee", "trukie", "truckey"].contains (pyLower s3) then "Truckee" else s3

/-- `_is_valid_place_name`. -/
def isValidPlaceName (name : Option String) : Bool :=
  match name with
  | none => false
  | some s =>
    if s = "" then false
    else
      let n := pyStripWs s
      if n = "" then false
      else
        let nl := pyLower n
        if badToTargets.contains nl then false
        else if reTest invalidDestRe nl then false
        else if (pySplit n).length > 6 then false
        else true

/-- `_hhmm_from_match`. -/
def hhmmFromMatch (hourStr : String) (minuteStr : Option String) (ampm : String) : String :=
  let hour0 := natOfDigits hourStr
  let minute := match minuteStr with
    | some m => if m = "" then 0 else natOfDigits m
    | none => 0
  let ap := pyLower ampm
  let hour1 := if ap = "pm" && hour0 ≠ 12 then hour0 + 12 else hour0
  let hour2 := if ap = "am" && hour1 = 12 then 0 else hour1
  pad2 hour2 ++ ":" ++ pad2 minute

/-- A chat message as consumed by `_derive_anchors_from_chat`
(`m.get("role")`, `m.get("text")`). -/
structure ChatMsg where
  role : Option String
  text : Option String
deriving DecidableEq

/-- The derived anchor set. -/
structure Anchors where
  origin_name : Option String
  destination_name : Option String
  duration_days : Option Nat
  depart_time_hhmm : Option String
  return_same_day : Option Bool
  travel_mode : Option String
deriving DecidableEq

def initAnchors : Anchors := ⟨none, none, none, none, none, none⟩

/-- `_is_user`. -/
def isUserMsg (m : ChatMsg) : Bool := pyLower (m.role.getD "") = "user"

def searchGroup1 (mk : Nat → RE) (t : String) : Option String :=
  match reSearch mk t with
  | some res => groupStr res.groups 1
  | none => none

def searchGroups12 (mk : Nat → RE) (t : String) : Option (String × String) :=
  match reSearch mk t with
  | some res =>
    match groupStr res.groups 1, groupStr res.groups 2 with
    | some a, some b => some (a, b)
    | _, _ => none
  | none => none

def searchTimeGroups (t : String) : Option (String × Option String × String) :=
  match reSearch timeRe t with
  | some res =>
    match groupStr res.groups 1, groupStr res.groups 3 with
    | some h, some ap => some (h, groupStr res.groups 2, ap)
    | _, _ => none
  | none => none

/-- The `_TO_ONLY_RE.finditer` loop: scan non-overlapping matches left to
right, keep the first whose cleaned candidate is a valid place name. -/
def toOnlyScanGo (re0 : RE) (fuel : Nat) (pv : Option Char) (rest : List Char) :
    Option String :=
  match fuel with
  | 0 => none
  | f + 1 =>
    match searchLoop re0 pv rest rest.length with
    | none => none
    | some res =>
      match groupStr res.groups 1 with
      | none => none
      | some g =>
        let cand := cleanPlace g
        if isValidPlaceName (some cand) then some cand
        else toOnlyScanGo re0 f res.endPrev res.endRest

def toOnlyScan (t : String) : Option String :=
  toOnlyScanGo (toOnlyRe t.length) (t.length + 1) none t.data

/-- The weak destination fallback (`in X` / `for X` / `visit X`), entered
only when no destination is set yet. -/
def weakDest (t : String) (cur : Option String) : Option String :=
  match searchGroup1 inOnlyRe t with
  | some g =>
    let cand := cleanPlace g
    if isValidPlaceName (some cand) then some cand else cur
  | none =>
    match searchGroup1 forOnlyRe t with
    | some g =>
      let cand := cleanPlace g
      if isValidPlaceName (some cand) then some cand else cur
    | none =>
      match searchGroup1 visitRe t with
      | some g =>
        let cand := cleanPlace g
        if isValidPlaceName (some cand) then some cand else cur
      | none => cur

/-- The route-extraction part of the per-message loop body (branches 1-4 and
the weak fallback), updating origin/destination. -/
def routeUpdate (st : Anchors) (t : String) : Anchors :=
  match searchGroups12 toFromRe t with
  | some (g1, g2) =>
    let destCand := cleanPlace g1
    let origCand := cleanPlace g2
    { st with
      destination_name :=
        if isValidPlaceName (some destCand) then some destCand else st.destination_name,
      origin_name :=
        if isValidPlaceName (some origCand) then some origCand else st.origin_name }
  | none =>
    match searchGroups12 fromToRe t with
    | some (g1, g2) =>
      let origCand := cleanPlace g1
      let destCand := cleanPlace g2
      { st with
        origin_name :=
          if isValidPlaceName (some origCand) then some origCand else st.origin_name,
        destination_name :=
          if isValidPlaceName (some destCand) then some destCand else st.destination_name }
    | none =>
      let orig1 :=
        match searchGroup1 fromOnlyRe t with
        | some g =>
          let cand := cleanPlace g
          if isValidPlaceName (some cand) then some cand else st.origin_name
        | none => st.origin_name
      let dest1 :=
        match toOnlyScan t with
        | some cand => some cand
        | none => st.destination_name
      let dest2 := if pyTruthyStr dest1 then dest1 else weakDest t dest1
      { st with origin_name := orig1, destination_name := dest2 }

/-- One iteration of the `_derive_anchors_from_chat` loop. -/
def stepMsg (st : Anchors) (m : ChatMsg) : Anchors :=
  if !(isUserMsg m) then st
  else
    let text := pyStripWs (m.text.getD "")
    if text = "" then st
    else
      let t := normSpace text
      let mode1 := if reTest travelModeRe t then some "CAR" else st.travel_mode
      let dur1 :=
        match searchGroup1 durationDaysRe t with
        | some d => some (natOfDigits d)
        | none => st.duration_days
      let dayTrip := reTest dayTripRe t
      let dur2 := if dayTrip then some 1 else dur1
      let rsd1 := if dayTrip then some true else st.return_same_day
      let dep1 :=
        match searchTimeGroups t with
        | some (h, mn, ap) => some (hhmmFromMatch h mn ap)
        | none => st.depart_time_hhmm
      routeUpdate
        { st with
          duration_days := dur2, depart_time_hhmm := dep1,
          return_same_day := rsd1, travel_mode := mode1 } t

/-- `_derive_anchors_from_chat`. -/
def deriveAnchorsFromChat (history : List ChatMsg) : Anchors :=
  history.foldl stepMsg initAnchors

/-- The destination produced by one message when extraction starts from the
empty anchor state ("this turn specifies a destination"). -/
def perMsgDest (m : ChatMsg) : Option String :=
  (stepMsg initAnchors m).destination_name

/-- The destination a message yields through the strong route patterns
(branches 1-4) alone; these assignments do not consult the accumulated
anchor state. -/
def strongDestOf (t : String) : Option String :=
  match searchGroups12 toFromRe t with
  | some (g1, _) =>
    let cand := cleanPlace g1
    if isValidPlaceName (some cand) then some cand else none
  | none =>
    match searchGroups12 fromToRe t with
    | some (_, g2) =>
      let cand := cleanPlace g2
      if isValidPlaceName (some cand) then some cand else none
    | none => toOnlyScan t

def strongDestMsg (m : ChatMsg) : Option String :=
  if !(isUserMsg m) then none
  else
    let text := pyStripWs (m.text.getD "")
    if text = "" then none else strongDestOf (normSpace text)

/-! ## Geoscope fill and origin/destination discard in
`ContextManager.build_context` (lines 436-461) -/

/-- A geoscope place dict (`name` / `display_name` / `region_code` keys). -/
structure PlaceDict where
  name : Option String
  display_name : Option String
  region_code : Option String
deriving DecidableEq

/-- A value held under `geoscope["origin"]` / `geoscope["destination"]`:
`None`, a dict, or (for the `isinstance` guards) some non-dict value. -/
inductive GeoVal where
  | noneV
  | place (p : PlaceDict)
  | nondict
deriving DecidableEq

structure GeoDict where
  origin : GeoVal
  destination : GeoVal
deriving DecidableEq

/-- `origin_obj.get("display_name") or origin_obj.get("name")` with
`origin_obj = \x7b\x7d` when the slot is not a dict. -/
def existingNameOf (g : GeoVal) : Option String :=
  match g with
  | .place p => pyOrStr p.display_name p.name
  | _ => none

/-- The chat-derived origin/destination fill (build_context lines 436-454). -/
def geoFill (g : GeoDict) (a : Anchors) : GeoDict :=
  let origin1 :=
    if isValidPlaceName a.origin_name && !(isValidPlaceName (existingNameOf g.origin)) then
      GeoVal.place ⟨a.origin_name, a.origin_name, none⟩
    else g.origin
  let destination1 :=
    if isValidPlaceName a.destination_name
        && !(isValidPlaceName (existingNameOf g.destination)) then
      GeoVal.place ⟨a.destination_name, a.destination_name, none⟩
    else g.destination
  ⟨origin1, destination1⟩

/-- `(d.get("display_name") or d.get("name") or "").strip().lower()`. -/
def resolvedKey (p : PlaceDict) : String :=
  pyLower (pyStripWs ((pyOrStr p.display_name p.name).getD ""))

/-- The equal-origin/destination discard (build_context lines 456-461). -/
def geoDiscard (g : GeoDict) : GeoDict :=
  match g.origin, g.destination with
  | .place po, .place pd =>
    let o := resolvedKey po
    let d := resolvedKey pd
    if o ≠ "" && d ≠ "" && o = d then ⟨g.origin, GeoVal.noneV⟩ else g
  | _, _ => g

/-- The geoscope portion of `build_context`: derive anchors from the visible
chat history, fill missing/invalid origin and destination, then discard a
destination equal to the origin. -/
def buildContextGeo (g : GeoDict) (history : List ChatMsg) : GeoDict :=
  geoDiscard (geoFill g (deriveAnchorsFromChat history))

/-! ## The long-term-memory step of `build_context` (lines 471-501) against
the worker `DBServiceClient` signatures

The worker client requires `embedding` for `upsert_memory` and
`query_embedding` for `query_memories` (both keyword-only); `build_context`
passes neither (it passes `extra_meta` and `query_text`/`top_k` instead), so
both calls raise `TypeError` at binding time, inside the surrounding
`try`/`except` blocks.  Python keyword binding is embedded as a check over
keyword-name lists. -/

/-- Python keyword-argument binding for a keyword-only signature: every
required name must be supplied and every supplied name must be known. -/
def pyBindOk (required optionalKs provided : List String) : Bool :=
  required.all (fun k => provided.contains k)
    && provided.all (fun k => required.contains k || optionalKs.contains k)

/-- Required keywords of worker `DBServiceClient.upsert_memory`. -/
def upsertMemoryRequiredKw : List String :=
  ["thread_id", "message_id", "text", "role", "embedding"]

def upsertMemoryOptionalKw : List String := ["extra_meta"]

/-- Keywords `build_context` passes to `upsert_memory` (line 476-482). -/
def ctxUpsertProvidedKw : List String :=
  ["thread_id", "message_id", "text", "role", "extra_meta"]

/-- Required keywords of worker `DBServiceClient.query_memories`. -/
def queryMemoriesRequiredKw : List String := ["thread_id", "query_embedding"]

def queryMemoriesOptionalKw : List String := ["top_k"]

/-- Keywords `build_context` passes to `query_memories` (line 488-492). -/
def ctxQueryProvidedKw : List String := ["thread_id", "query_text", "top_k"]

/-- A long-term memory hit as post-processed by `build_context`. -/
structure MemoryHit where
  text : String
  metadata : List (String × String)
  message_id : Option String
deriving DecidableEq

/-- The per-hit `message_id` backfill of build_context lines 493-497. -/
def memHitFill (m : MemoryHit) : MemoryHit :=
  match pyOrStr (pyDictGet m.metadata "message_id") (pyDictGet m.metadata "id") with
  | some mid => if mid ≠ "" then { m with message_id := some mid } else m
  | none => m

/-- The long-term-memory section of `build_context`: attempt the upsert
(guarded by thread/last-user presence), attempt the query, each inside its
own `try`/`except`; a binding failure is caught and leaves the store
untouched resp. yields empty results.  The semantic store's behavior on a
successful call is left abstract (`hypUpsert`, `dbHits`). -/
def buildContextLongTermMemory {α : Type} (hypUpsert : α → α) (store : α)
    (upsertGuard : Bool) (dbHits : List MemoryHit) :
    α × List MemoryHit × List String :=
  let store1 :=
    if upsertGuard && pyBindOk upsertMemoryRequiredKw upsertMemoryOptionalKw ctxUpsertProvidedKw
    then hypUpsert store else store
  if pyBindOk queryMemoriesRequiredKw queryMemoriesOptionalKw ctxQueryProvidedKw then
    let hits := dbHits.map memHitFill
    (store1, hits, (hits.filterMap (fun m => m.message_id)).filter (fun s => s ≠ ""))
  else (store1, [], [])

/-! ## `VectorDBClient.upsert_message` (db-service, vector_db_client.py) -/

/-- A stored vector-store document. -/
structure VdbDoc where
  text : String
  metadata : List (String × String)
deriving DecidableEq

/-- Python `dict.update`: existing keys overwritten, new keys appended. -/
def pyDictUpdate (base extra : List (String × String)) : List (String × String) :=
  (base.map (fun kv =>
    match extra.find? (fun e => e.1 == kv.1) with
    | some e => (kv.1, e.2)
    | none => kv))
  ++ extra.filter (fun e => !(base.any (fun kv => kv.1 == e.1)))

/-- `VectorDBClient.upsert_message`: skip empty text, else delete the stable
id `thread_id:message_id` and append one fresh document under it. -/
def upsertMessage (store : List (String × VdbDoc)) (thread_id message_id text role : String)
    (extra_meta : Option (List (String × String))) : List (String × VdbDoc) :=
  if text = "" then store
  else
    let docId := thread_id ++ ":" ++ message_id
    let baseMeta := [("thread_id", thread_id), ("message_id", message_id), ("role", role)]
    let meta :=
      match extra_meta with
      | some em => if em = [] then baseMeta else pyDictUpdate baseMeta em
      | none => baseMeta
    (store.filter (fun kv => kv.1 ≠ docId)) ++ [(docId, ⟨text, meta⟩)]

/-- All records stored under one id. -/
def recordsFor (store : List (String × VdbDoc)) (docId : String) : List VdbDoc :=
  (store.filter (fun kv => kv.1 = docId)).map (fun kv => kv.2)

/-! ## `NormalizedMessage.clamp_enums` (normalized_trip.py) against the
vocabularies of `config.Settings` -/

def SUPPORTED_TRIP_TYPES : List String := ["TREKKING", "CAMPING", "ROAD_TRIP", "CITY_BREAK"]
def SUPPORTED_DIFFICULTY : List String := ["EASY", "MODERATE", "HARD"]
def SUPPORTED_TRAVEL_MODES : List String := ["CAR", "TRAIN", "BUS"]
def SUPPORTED_ACCOM : List String := ["CAMPING", "HOTEL", "HOSTEL"]
def SUPPORTED_AMENITIES : List String := ["WI_FI", "POOL", "PARKING"]

structure TransportPref where
  allowed : Option (List String)
  forbidden : Option (List String)
  intercity_travel : Option Bool
deriving DecidableEq

structure LodgingPrefM where
  types : Option (List String)
  pet_friendly_required : Option Bool
  amenities_prefer : Option (List String)
deriving DecidableEq

structure BudgetModel where
  band : Option String
  ceiling_total : Option Int
  per_day : Option Int
deriving DecidableEq

/-- The `Constraints` pydantic model; `difficulty` is a string dict. -/
structure ConstraintsModel where
  trip_types : Option (List String)
  difficulty : Option (List (String × String))
  transport : Option TransportPref
  lodging : Option LodgingPrefM
  diet : Option (List String)
  themes : Option (List String)
  poi_tags : Option (List (String × List String))
  budget : Option BudgetModel
  events_only : Option Bool
deriving DecidableEq

/-- `NormalizedMessage.clamp_enums`. -/
def clampEnums (v : Option ConstraintsModel) : Option ConstraintsModel :=
  match v with
  | none => none
  | some v =>
    let tt := (v.trip_types.getD []).filter (fun t => SUPPORTED_TRIP_TYPES.contains t)
    let d0 := v.difficulty.getD []
    let lvl := (pyDictGet d0 "level").getD "EASY"
    let d1 :=
      if !(SUPPORTED_DIFFICULTY.contains lvl) then
        pyDictSet (pyDictSet d0 "level" "EASY") "effort_profile" "LOW"
      else d0
    let tr := v.transport.map (fun t =>
      { t with allowed := some ((t.allowed.getD []).filter
          (fun m => SUPPORTED_TRAVEL_MODES.contains m)) })
    let lg := v.lodging.map (fun l =>
      { l with
        types := some ((l.types.getD []).filter (fun a => SUPPORTED_ACCOM.contains a)),
        amenities_prefer := some ((l.amenities_prefer.getD []).filter
          (fun a => SUPPORTED_AMENITIES.contains a)) })
    some { v with trip_types := some tt, difficulty := some d1, transport := tr, lodging := lg }

/-! ## Day and budget normalization in `RequestHandler.normalize`
(request_handler.py) -/

/-- `Settings.BUDGET_BANDS`. -/
def BUDGET_BANDS (band : String) : Option (Int × Int) :=
  if band = "USD_0_500" then some (0, 500)
  else if band = "USD_500_1000" then some (500, 1000)
  else if band = "USD_1000_2000" then some (1000, 2000)
  else none

/-- The user-filter fields `normalize` reads for days and budget. -/
structure RawUserFiltersM where
  duration_days : Option Int
  budget_level : Option String
deriving DecidableEq

/-- `_compute_days` (dates as day ordinals, so `end - start` is the Python
`timedelta.days`). -/
def computeDays (startD endD : Option Int) : Option Int :=
  match startD, endD with
  | some s, some e =>
    let delta := e - s
    some (if delta > 0 then max 1 delta else 1)
  | _, _ => none

/-- The `days` derivation of `normalize` step 2: explicit dates first, else a
truthy `duration_days` hint, else `None`. -/
def normDays (dates : Option (Option Int × Option Int)) (uf : Option RawUserFiltersM) :
    Option Int :=
  match computeDays (dates.bind (fun d => d.1)) (dates.bind (fun d => d.2)) with
  | some d => some d
  | none =>
    match uf with
    | some u =>
      match u.duration_days with
      | some n => if n ≠ 0 then some n else none
      | none => none
    | none => none

/-- The budget derivation of `normalize` step 4. -/
def normBudget (uf : Option RawUserFiltersM) (days : Option Int) : Option BudgetModel :=
  match uf with
  | none => none
  | some u =>
    match u.budget_level with
    | some band =>
      if band = "" then none
      else
        let loHi := BUDGET_BANDS band
        let ceiling := loHi.map (fun p => p.2)
        let perDay :=
          match loHi, days with
          | some (_, hi), some d => if d ≠ 0 then some (max 1 (hi / max 1 d)) else none
          | _, _ => none
        some ⟨some band, ceiling, perDay⟩
    | none => none

/-- Days and budget of the normalized message, as produced by `normalize`. -/
def normalizeDaysBudget (dates : Option (Option Int × Option Int))
    (uf : Option RawUserFiltersM) : Option Int × Option BudgetModel :=
  (normDays dates uf, normBudget uf (normDays dates uf))

/-! ## Plan generation (`llm_module.py`) -/

/-- JSON values (numbers as integers; no claim depends on fractional
number values). -/
inductive Json where
  | null
  | bool (b : Bool)
  | num (n : Int)
  | str (s : String)
  | arr (elems : List Json)
  | obj (fields : List (String × Json))

def lookupJ (kvs : List (String × Json)) (k : String) : Option Json :=
  (kvs.find? (fun kv => kv.1 == k)).map (fun kv => kv.2)

/-- Python `dict.setdefault`. -/
def setdefaultJ (kvs : List (String × Json)) (k : String) (v : Json) :
    List (String × Json) :=
  if kvs.any (fun kv => kv.1 == k) then kvs else kvs ++ [(k, v)]

/-- Python `a or b` collapsed to a plain string with a truthy default. -/
def pyOrStrD (a : Option String) (dflt : String) : String :=
  match a with
  | some s => if s = "" then dflt else s
  | none => dflt

def optStrJson (a : Option String) : Json :=
  match a with
  | some s => Json.str s
  | none => Json.null

/-- The `time` block of a context pack as read by the generator. -/
structure CtxTimeBlock where
  days : Option Int
deriving DecidableEq

/-- The constraint keys `_rule_based_plan` reads (`duration_days` and
`budget_level` are read by the code although `build_context` never sets
them, so they are carried as optional fields). -/
structure CtxConstraints where
  trip_types : Option (List String)
  duration_days : Option Int
  difficulty : Option (List (String × String))
  budget : Option BudgetModel
  budget_level : Option String
deriving DecidableEq

def emptyCtxConstraints : CtxConstraints := ⟨none, none, none, none, none⟩

structure CtxGeoscope where
  destination : Option PlaceDict
deriving DecidableEq

/-- The context-pack fields the generator consumes. -/
structure CtxPack where
  thread_id : Option String
  message_id : Option String
  window_summary : Option String
  constraints : Option CtxConstraints
  geoscope : Option CtxGeoscope
  time : Option CtxTimeBlock
deriving DecidableEq

/-- A retrieved point of interest. -/
structure PoiDoc where
  name : Option String
  title : Option String
  description : Option String
  summary : Option String
  tags : Option (List String)
  categories : Option (List String)
deriving DecidableEq

/-- A retrieved lodging candidate. -/
structure LodgingDoc where
  name : Option String
  type : Option String
  location : Option String
  address : Option String
  notes : Option String
  description : Option String
deriving DecidableEq

structure WeatherDoc where
  summary : Option String
  forecast_summary : Option String
deriving DecidableEq

/-- The grounded context the generator consumes. -/
structure Grounded where
  pois : Option (List PoiDoc)
  lodging : Option (List LodgingDoc)
  weather : Option WeatherDoc
deriving DecidableEq

/-- `display_name or name or region_code or "your destination"`. -/
def destinationNameOf (cp : CtxPack) : String :=
  match cp.geoscope with
  | some g =>
    match g.destination with
    | some p => pyOrStrD (pyOrStr (pyOrStr p.display_name p.name) p.region_code)
        "your destination"
    | none => "your destination"
  | none => "your destination"

/-- Python `a or b` on optional ints (zero is falsy). -/
def pyOrInt (a : Option Int) (b : Int) : Int :=
  match a with
  | some n => if n ≠ 0 then n else b
  | none => b

/-- `time_block.get("days") or constraints.get("duration_days") or 3`. -/
def ruleDays (cp : CtxPack) : Int :=
  pyOrInt (cp.time.getD ⟨none⟩).days
    (pyOrInt (cp.constraints.getD emptyCtxConstraints).duration_days 3)

def jsonOfStrDict (d : List (String × String)) : Json :=
  Json.obj (d.map (fun kv => (kv.1, Json.str kv.2)))

/-- `(difficulty or empty).get("level") or difficulty or "EASY"`. -/
def ruleDifficulty (cs : CtxConstraints) : Json :=
  match cs.difficulty with
  | none => Json.str "EASY"
  | some d =>
    if d = [] then Json.str "EASY"
    else
      match pyDictGet d "level" with
      | some l => if l ≠ "" then Json.str l else jsonOfStrDict d
      | none => jsonOfStrDict d

/-- `(budget or empty).get("band") or budget_level or "USD_0_500"`. -/
def ruleBudgetBand (cs : CtxConstraints) : String :=
  pyOrStrD (pyOrStr (cs.budget.bind (fun b => b.band)) cs.budget_level) "USD_0_500"

/-- Python list slice `l[:k]` including the negative-stop case. -/
def pySliceTo {α : Type} (l : List α) (k : Int) : List α :=
  if 0 ≤ k then l.take k.toNat else l.take (((l.length : Int) + k).toNat)

/-- `poi.get("tags") or poi.get("categories") or []`. -/
def poiTags (p : PoiDoc) : List String :=
  match p.tags with
  | some l =>
    if l = [] then
      match p.categories with
      | some l2 => l2
      | none => []
    else l
  | none =>
    match p.categories with
    | some l2 => l2
    | none => []

def poiName (p : PoiDoc) : String := pyOrStrD (pyOrStr p.name p.title) "Unknown spot"

def ruleActivity (p : PoiDoc) : Json :=
  let nm := poiName p
  let ds := pyOrStrD (pyOrStr p.description p.summary)
    ("Spend some relaxed time exploring " ++ nm ++ ".")
  Json.obj [("name", Json.str nm), ("description", Json.str ds),
            ("tags", Json.arr ((poiTags p).map Json.str)),
            ("estimated_time_hours", Json.num 2)]

/-- One itinerary day entry of the rule-based planner (0-based index `i`). -/
def ruleDayPlan (destName : String) (days : Int) (poisForPlan : List PoiDoc) (i : Nat) :
    Json :=
  let dayPois := (poisForPlan.drop (i * 3)).take 3
  let acts := dayPois.map ruleActivity
  let names := dayPois.map poiName
  let highlights :=
    if names = [] then ["Explore " ++ destName ++ " at your own pace"] else names
  let title0 := "Day " ++ toString (i + 1) ++ " in " ++ destName
  let title :=
    if i + 1 = 1 then title0 ++ " – Arrival and first impressions"
    else if ((i : Int) + 1) = days then title0 ++ " – Farewell and final stops"
    else title0
  Json.obj [("day", Json.num ((i : Int) + 1)), ("title", Json.str title),
            ("highlights", Json.arr (highlights.map Json.str)),
            ("activities", Json.arr acts)]

def ruleItinerary (gc : Grounded) (cp : CtxPack) : List Json :=
  let days := ruleDays cp
  let destName := destinationNameOf cp
  let pois := gc.pois.getD []
  let poisForPlan := pySliceTo pois (days * 3)
  (List.range days.toNat).map (ruleDayPlan destName days poisForPlan)

def ruleLodging (destName : String) (gc : Grounded) : Json :=
  match gc.lodging.getD [] with
  | [] => Json.null
  | l0 :: _ =>
    Json.obj [("name", Json.str (pyOrStrD l0.name "Suggested lodging")),
              ("type", optStrJson l0.type),
              ("location", optStrJson (pyOrStr l0.location l0.address)),
              ("notes", Json.str (pyOrStrD (pyOrStr l0.notes l0.description)
                ("A practical place to stay in or near " ++ destName ++ ".")))]

def ruleWeatherHint (gc : Grounded) : Json :=
  let w := gc.weather.getD ⟨none, none⟩
  match pyOrStr w.summary w.forecast_summary with
  | some s => if s = "" then Json.null else Json.str s
  | none => Json.null

/-- `LLMModule._rule_based_plan`. -/
def ruleBasedPlan (gc : Grounded) (cp : CtxPack) : Json :=
  let cs := cp.constraints.getD emptyCtxConstraints
  let destName := destinationNameOf cp
  let days := ruleDays cp
  Json.obj [("type", Json.str "trip_plan"),
            ("version", Json.str "v1"),
            ("thread_id", optStrJson cp.thread_id),
            ("message_id", optStrJson cp.message_id),
            ("destination", Json.str destName),
            ("days", Json.num days),
            ("trip_types", Json.arr ((cs.trip_types.getD []).map Json.str)),
            ("difficulty", ruleDifficulty cs),
            ("budget_band", Json.str (ruleBudgetBand cs)),
            ("lodging", ruleLodging destName gc),
            ("weather_hint", ruleWeatherHint gc),
            ("window_summary", optStrJson cp.window_summary),
            ("itinerary", Json.arr (ruleItinerary gc cp))]

/-- The identity-field backfill of `_call_gemini` (five `setdefault`s). -/
def geminiBackfill (cp : CtxPack) (kvs : List (String × Json)) : List (String × Json) :=
  setdefaultJ (setdefaultJ (setdefaultJ (setdefaultJ (setdefaultJ kvs
    "type" (Json.str "trip_plan")) "version" (Json.str "v1"))
    "thread_id" (optStrJson cp.thread_id)) "message_id" (optStrJson cp.message_id))
    "destination" (Json.str (destinationNameOf cp))

/-- The unwrap-and-backfill step of `_call_gemini` applied to parsed response
JSON.  `none` models an exception inside `_run_sync_call`: no `reply` key and
no `type == "trip_plan"` raises `RuntimeError`, and a non-dict plan makes the
`setdefault` calls raise `AttributeError`. -/
def geminiPostprocess (cp : CtxPack) (parsed : Json) : Option Json :=
  match parsed with
  | Json.obj kvs =>
    if kvs.any (fun kv => kv.1 == "reply") then
      match lookupJ kvs "reply" with
      | some (Json.obj r) => some (Json.obj (geminiBackfill cp r))
      | _ => none
    else
      match lookupJ kvs "type" with
      | some (Json.str s) =>
        if s = "trip_plan" then some (Json.obj (geminiBackfill cp kvs)) else none
      | _ => none
  | _ => none

/-- Outcome of the external Gemini call: an exception anywhere before JSON
parsing succeeds (network error, empty response text, `JSONDecodeError`), or
a parsed JSON value. -/
inductive GeminiOutcome where
  | callError
  | parsed (j : Json)

/-- `_call_gemini` as seen by `generate_plan`: either a trip plan or an
exception (`none`). -/
def geminiPlan (cp : CtxPack) (o : GeminiOutcome) : Option Json :=
  match o with
  | .callError => none
  | .parsed j => geminiPostprocess cp j

/-- `LLMModule.generate_plan`: try Gemini when enabled, catch any failure and
fall back to the rule-based planner. -/
def generatePlan (useGemini : Bool) (o : GeminiOutcome) (gc : Grounded) (cp : CtxPack) :
    Json :=
  if useGemini then
    match geminiPlan cp o with
    | some p => p
    | none => ruleBasedPlan gc cp
  else ruleBasedPlan gc cp

/-! ### The Trip Plan structural invariant of spec section 3 -/

def planDays (p : Json) : Option Int :=
  match p with
  | Json.obj kvs =>
    match lookupJ kvs "days" with
    | some (Json.num n) => some n
    | _ => none
  | _ => none

def planItinerary (p : Json) : Option (List Json) :=
  match p with
  | Json.obj kvs =>
    match lookupJ kvs "itinerary" with
    | some (Json.arr l) => some l
    | _ => none
  | _ => none

def itinEntryDay (e : Json) : Option Int :=
  match e with
  | Json.obj kvs =>
    match lookupJ kvs "day" with
    | some (Json.num n) => some n
    | _ => none
  | _ => none

/-- `days == 0` forces an empty itinerary, and `days == N >= 1` forces an
itinerary of exactly `N` entries carrying `day == i+1`. -/
def planInvariant (p : Json) : Prop :=
  (planDays p = some 0 → planItinerary p = some []) ∧
  ∀ n : Int, 1 ≤ n → planDays p = some n →
    ∃ l, planItinerary p = some l ∧ (l.length : Int) = n ∧
      ∀ i, (h2 : i < l.length) → itinEntryDay l[i] = some ((i : Int) + 1)

/-! ## `TripOrchestrator.process_trip_request` (orchestrator.py) -/

/-- Outcome of one collaborator step: a value or a raised exception. -/
inductive StepResult (α : Type) where
  | ok (val : α)
  | exn (msg : String)
deriving DecidableEq

/-- Oracle for the orchestrator's collaborator calls (values abstracted to
`Nat` handles) plus the thread id the built context pack carries. -/
structure OrchSteps where
  normalize : StepResult Nat
  createNormalised : StepResult Unit
  buildContext : StepResult Nat
  retrieve : StepResult Nat
  generatePlanStep : StepResult Nat
  ctxThread : Option String
  saveAssistant : StepResult Unit
  saveDebug : StepResult Unit
deriving DecidableEq

inductive OrchOutcome where
  | returned (plan : Option Nat)
  | raised (msg : String)
deriving DecidableEq

/-- A `create_message` write observed at the db-service. -/
structure PersistedMsg where
  thread_id : String
  role : String
  errorInfo : Option String
  hadContext : Bool
  hadGrounded : Bool
deriving DecidableEq

structure OrchTrace where
  outcome : OrchOutcome
  persisted : List PersistedMsg
deriving DecidableEq

/-- The `except` handler of `process_trip_request`: build the debug payload,
persist it when the raw request has a thread id, and note that the bare
`raise` sits inside the inner `except` block, so the original exception is
re-raised only when persisting the debug message itself fails (and then the
persistence error is what propagates). -/
def orchHandle (rawThread : Option String) (s : OrchSteps) (e : String)
    (hasCtx hasGr : Bool) : OrchTrace :=
  match rawThread with
  | some tid =>
    if tid ≠ "" then
      match s.saveDebug with
      | .ok _ => ⟨.returned none, [⟨tid, "system", some e, hasCtx, hasGr⟩]⟩
      | .exn le => ⟨.raised le, []⟩
    else ⟨.returned none, []⟩
  | none => ⟨.returned none, []⟩

/-- `TripOrchestrator.process_trip_request`. -/
def processTripRequest (rawThread : Option String) (s : OrchSteps) : OrchTrace :=
  match s.normalize with
  | .exn e => orchHandle rawThread s e false false
  | .ok _ =>
    match s.createNormalised with
    | .exn e => orchHandle rawThread s e false false
    | .ok _ =>
      match s.buildContext with
      | .exn e => orchHandle rawThread s e false false
      | .ok _ =>
        match s.retrieve with
        | .exn e => orchHandle rawThread s e true false
        | .ok _ =>
          match s.generatePlanStep with
          | .exn e => orchHandle rawThread s e true true
          | .ok plan =>
            match s.ctxThread with
            | some tid =>
              if tid ≠ "" then
                match s.saveAssistant with
                | .exn e => orchHandle rawThread s e true true
                | .ok _ => ⟨.returned (some plan), [⟨tid, "assistant", none, false, false⟩]⟩
              else ⟨.returned (some plan), []⟩
            | none => ⟨.returned (some plan), []⟩

/-! ## Claim theorems -/

set_option maxRecDepth 100000

/-- C5: evaluation of anchor extraction on the scenario-B chat turn.  The
code yields `origin_name = "Fremont"`, `duration_days = 1`,
`depart_time_hhmm = "07:00"`, `return_same_day = true`, `travel_mode = "CAR"`
as the claim states, but `destination_name = "Truckee from Fremont"`, not
`"Truckee"`: `_TO_FROM_RE`'s stop lookahead has no alternative for `from`,
so the pattern its own comment says handles `"to Truckee from Fremont"`
cannot match, and the loose `_TO_ONLY_RE` captures up to the comma instead. -/
theorem c5_anchor_extraction_on_scenario_b :
    deriveAnchorsFromChat
        [⟨some "user", some "drive to Truckee from Fremont, one day trip, leave at 7am"⟩]
      = { origin_name := some "Fremont",
          destination_name := some "Truckee from Fremont",
          duration_days := some 1, depart_time_hhmm := some "07:00",
          return_same_day := some true, travel_mode := some "CAR" }
    ∧ (deriveAnchorsFromChat
        [⟨some "user",
          some "drive to Truckee from Fremont, one day trip, leave at 7am"⟩]).destination_name
      ≠ some "Truckee" := by
  exact ⟨by decide, by decide⟩

/-- C3: when a pipeline step raises and the diagnostic write succeeds, the
orchestrator persists the system-role diagnostic (carrying the error and the
partial context flags) but does not re-raise: the bare `raise` sits inside
the inner `except` block, so `process_trip_request` falls off the handler and
returns `None`.  Evaluated here at a request whose normalize step raises. -/
theorem c3_diagnostic_persisted_but_not_reraised :
    processTripRequest (some "thread-1")
        { normalize := .exn "normalize failed", createNormalised := .ok (),
          buildContext := .ok 0, retrieve := .ok 0, generatePlanStep := .ok 0,
          ctxThread := some "thread-1", saveAssistant := .ok (), saveDebug := .ok () }
      = ⟨.returned none, [⟨"thread-1", "system", some "normalize failed", false, false⟩]⟩ := by
  rfl

/-- C4: the keyword sets `build_context` passes to `upsert_memory` and
`query_memories` fail to bind against the worker client signatures (no
`embedding`, no `query_embedding`), both `TypeError`s are caught inside
`build_context`, so for every store behavior and every hypothetical query
result the store is untouched and the context pack gets
`long_term_memories = []` and `used_memory_ids = []`. -/
theorem c4_long_term_memory_always_empty :
    ∀ (α : Type) (hypUpsert : α → α) (store : α) (guard : Bool) (dbHits : List MemoryHit),
      buildContextLongTermMemory hypUpsert store guard dbHits = (store, [], [])
      ∧ pyBindOk upsertMemoryRequiredKw upsertMemoryOptionalKw ctxUpsertProvidedKw = false
      ∧ pyBindOk queryMemoriesRequiredKw queryMemoriesOptionalKw ctxQueryProvidedKw = false := by
  intro α hypUpsert store guard dbHits
  refine ⟨?_, by decide, by decide⟩
  unfold buildContextLongTermMemory
  rw [show pyBindOk upsertMemoryRequiredKw upsertMemoryOptionalKw ctxUpsertProvidedKw
      = false from by decide,
    show pyBindOk queryMemoriesRequiredKw queryMemoriesOptionalKw ctxQueryProvidedKw
      = false from by decide]
  simp

/-- C4 witness: the statement applied at a concrete store and query result. -/
theorem c4_long_term_memory_always_empty_witness :
    buildContextLongTermMemory (fun n => n + 1) (7 : Nat) true
        [⟨"hello", [("message_id", "m9")], none⟩]
      = (7, [], [])
    ∧ pyBindOk upsertMemoryRequiredKw upsertMemoryOptionalKw ctxUpsertProvidedKw = false
    ∧ pyBindOk queryMemoriesRequiredKw queryMemoriesOptionalKw ctxQueryProvidedKw = false :=
  c4_long_term_memory_always_empty Nat (fun n => n + 1) 7 true
    [⟨"hello", [("message_id", "m9")], none⟩]

/-- C6 counterexample: the claim quantifies over every pair of texts, but
`upsert_message` returns early on empty text, so upserting `"a"` and then
`""` leaves the record text `"a"`, not the latest text `""`. -/
theorem c6_second_upsert_with_empty_text_ignored :
    recordsFor
        (upsertMessage (upsertMessage [] "t" "m" "a" "user" none) "t" "m" "" "user" none)
        ("t" ++ ":" ++ "m")
      = [⟨"a", [("thread_id", "t"), ("message_id", "m"), ("role", "user")]⟩]
    ∧ ("a" : String) ≠ "" := by
  exact ⟨by decide, by decide⟩

theorem filterNeThenEq (l : List (String × VdbDoc)) (docId : String) :
    (l.filter (fun kv => kv.1 ≠ docId)).filter (fun kv => kv.1 = docId) = [] := by
  induction l with
  | nil => rfl
  | cons h t ih =>
    by_cases h2 : h.1 = docId <;> simp [List.filter_cons, h2, ih]

/-- C6 amended: for every starting store and every pair of texts whose
second element is nonempty (empty-text upserts are ignored by the early
return), two upserts under the same `(thread_id, message_id)` leave exactly
one record under the stable id `thread_id:message_id`, carrying the second
text. -/
theorem c6_upsert_idempotent_latest_nonempty_text_wins :
    ∀ (store : List (String × VdbDoc)) (tid mid t1 t2 r1 r2 : String)
      (em1 em2 : Option (List (String × String))), t2 ≠ "" →
      (recordsFor (upsertMessage (upsertMessage store tid mid t1 r1 em1) tid mid t2 r2 em2)
          (tid ++ ":" ++ mid)).map (fun d => d.text)
        = [t2] := by
  intro store tid mid t1 t2 r1 r2 em1 em2 ht2
  unfold upsertMessage recordsFor
  rw [if_neg ht2]
  simp [List.filter_append, filterNeThenEq]

/-- C6 witness: the amended statement applied at concrete texts. -/
theorem c6_upsert_idempotent_witness :
    (("b" : String) ≠ "")
    ∧ (recordsFor
          (upsertMessage (upsertMessage [] "t" "m" "a" "user" none) "t" "m" "b" "user" none)
          ("t" ++ ":" ++ "m")).map (fun d => d.text)
        = ["b"] :=
  ⟨by decide,
   c6_upsert_idempotent_latest_nonempty_text_wins [] "t" "m" "a" "b" "user" "user" none none
     (by decide)⟩

/-- C8: whenever the filled geoscope resolves origin and destination to the
same nonempty case-insensitive key, `build_context` discards the destination
(sets it to `None`) rather than keeping a degenerate loop, for every chat
history and every incoming geoscope. -/
theorem c8_equal_origin_destination_discarded :
    ∀ (history : List ChatMsg) (g : GeoDict) (po pd : PlaceDict),
      (geoFill g (deriveAnchorsFromChat history)).origin = GeoVal.place po →
      (geoFill g (deriveAnchorsFromChat history)).destination = GeoVal.place pd →
      resolvedKey po ≠ "" →
      resolvedKey po = resolvedKey pd →
      (buildContextGeo g history).destination = GeoVal.noneV := by
  intro history g po pd hor hdest hne heq
  unfold buildContextGeo
  have hx : geoFill g (deriveAnchorsFromChat history) = ⟨GeoVal.place po, GeoVal.place pd⟩ := by
    cases hgf : geoFill g (deriveAnchorsFromChat history) with
    | mk o d =>
      rw [hgf] at hor hdest
      simp only at hor hdest
      rw [hor, hdest]
  rw [hx]
  unfold geoDiscard
  simp only
  rw [if_pos]
  simp only [Bool.and_eq_true, decide_eq_true_eq, ne_eq]
  exact ⟨⟨hne, heq ▸ hne⟩, heq⟩

/-- C8 witness: the statement applied at the empty history and a geoscope
whose origin and destination already resolve to the same key. -/
theorem c8_equal_origin_destination_discarded_witness :
    (buildContextGeo
        ⟨GeoVal.place ⟨some "Paris", none, none⟩, GeoVal.place ⟨some "paris", none, none⟩⟩
        []).destination = GeoVal.noneV :=
  c8_equal_origin_destination_discarded []
    ⟨GeoVal.place ⟨some "Paris", none, none⟩, GeoVal.place ⟨some "paris", none, none⟩⟩
    ⟨some "Paris", none, none⟩ ⟨some "paris", none, none⟩
    (by decide) (by decide) (by decide) (by decide)

/-- C10: scenario C evaluates as claimed, the per-day derivation follows
`max(1, ceiling/days)` for any recognized band and positive known days, and
`per_day` is set only when a recognized band and truthy days are both
known. -/
theorem c10_budget_band_and_per_day :
    normalizeDaysBudget none (some ⟨some 5, some "USD_500_1000"⟩)
      = (some 5, some ⟨some "USD_500_1000", some 1000, some 200⟩)
    ∧ (∀ (u : RawUserFiltersM) (band : String) (lo hi d : Int),
        u.budget_level = some band → BUDGET_BANDS band = some (lo, hi) → 1 ≤ d →
        normBudget (some u) (some d) = some ⟨some band, some hi, some (max 1 (hi / d))⟩)
    ∧ (∀ (uf : Option RawUserFiltersM) (days : Option Int) (b : BudgetModel),
        normBudget uf days = some b → b.per_day ≠ none →
        ((∃ u band lo hi, uf = some u ∧ u.budget_level = some band
            ∧ BUDGET_BANDS band = some (lo, hi))
         ∧ ∃ k, days = some k ∧ k ≠ 0)) := by
  refine ⟨by decide, ?_, ?_⟩
  · intro u band lo hi d hbl hband hd
    have hbandne : band ≠ "" := by
      intro he
      rw [he] at hband
      simp [BUDGET_BANDS] at hband
    have hdne : d ≠ 0 := by omega
    have hmax : max 1 d = d := by omega
    simp only [normBudget]
    rw [hbl]
    dsimp only
    rw [if_neg hbandne, hband]
    dsimp only
    rw [if_pos hdne, hmax]
    rfl
  · intro uf days b hb hpd
    cases uf with
    | none => simp [normBudget] at hb
    | some u =>
      cases hbl : u.budget_level with
      | none => simp [normBudget, hbl] at hb
      | some band =>
        by_cases hbe : band = ""
        · simp [normBudget, hbl, hbe] at hb
        · cases hband : BUDGET_BANDS band with
          | none =>
            simp only [normBudget, hbl, if_neg hbe, hband] at hb
            have hb2 := Option.some.inj hb
            rw [← hb2] at hpd
            simp at hpd
          | some p =>
            obtain ⟨lo, hi⟩ := p
            refine ⟨⟨u, band, lo, hi, rfl, hbl, hband⟩, ?_⟩
            cases days with
            | none =>
              simp only [normBudget, hbl, if_neg hbe, hband] at hb
              have hb2 := Option.some.inj hb
              rw [← hb2] at hpd
              simp at hpd
            | some k =>
              by_cases hk : k = 0
              · simp only [normBudget, hbl, if_neg hbe, hband, hk] at hb
                have hb2 := Option.some.inj hb
                rw [← hb2] at hpd
                simp at hpd
              · exact ⟨k, rfl, hk⟩

/-- C10 witness: the general clauses applied at a concrete request. -/
theorem c10_budget_band_and_per_day_witness :
    normBudget (some ⟨some 3, some "USD_1000_2000"⟩) (some 3)
      = some ⟨some "USD_1000_2000", some 2000, some 666⟩
    ∧ ((∃ u band lo hi, (some ⟨some 3, some "USD_1000_2000"⟩ : Option RawUserFiltersM) = some u
          ∧ u.budget_level = some band ∧ BUDGET_BANDS band = some (lo, hi))
       ∧ ∃ k, (some 3 : Option Int) = some k ∧ k ≠ 0) := by
  have h1 := c10_budget_band_and_per_day.2.1 ⟨some 3, some "USD_1000_2000"⟩
    "USD_1000_2000" 1000 2000 3 rfl (by decide) (by decide)
  have h2 := c10_budget_band_and_per_day.2.2 (some ⟨some 3, some "USD_1000_2000"⟩)
    (some 3) ⟨some "USD_1000_2000", some 2000, some 666⟩
  constructor
  · rw [h1]
    decide
  · refine h2 ?_ (by decide)
    rw [h1]
    decide

/-- Replacing the value stored under key `k` commutes with `find?` by any
key predicate, since the rewrite keeps every key unchanged. -/
theorem findSetKey (d : List (String × String)) (k v k2 : String) :
    ((d.map (fun kv => if kv.1 == k then (kv.1, v) else kv)).find?
        (fun kv => kv.1 == k2))
      = (d.find? (fun kv => kv.1 == k2)).map
          (fun kv => if kv.1 == k then (kv.1, v) else kv) := by
  induction d with
  | nil => rfl
  | cons hd tl ih =>
    have hkey : (if hd.1 == k then ((hd.1, v) : String × String) else hd).1 = hd.1 := by
      by_cases h : hd.1 = k <;> simp [h]
    simp only [List.map_cons, List.find?_cons, hkey, ih]
    by_cases h2 : hd.1 = k2
    · simp [h2]
    · have hb : (hd.1 == k2) = false := by simpa using h2
      simp [hb]

theorem pyDictGet_set_same (d : List (String × String)) (k v : String) :
    pyDictGet (pyDictSet d k v) k = some v := by
  unfold pyDictSet pyDictGet
  by_cases h : d.any (fun kv => kv.1 == k)
  · rw [if_pos h, findSetKey]
    cases hf : d.find? (fun kv => kv.1 == k) with
    | none =>
      rw [List.find?_eq_none] at hf
      obtain ⟨x, hx, hpx⟩ := List.any_eq_true.mp h
      exact absurd hpx (by simpa using hf x hx)
    | some y =>
      have hy2 : y.1 = k := by simpa using List.find?_some hf
      simp [hy2]
  · rw [if_neg h]
    have hnone : d.find? (fun kv => kv.1 == k) = none := by
      rw [List.find?_eq_none]
      intro x hx
      intro hpx
      exact h (List.any_eq_true.mpr ⟨x, hx, hpx⟩)
    rw [List.find?_append, hnone]
    simp [List.find?]

theorem pyDictGet_set_other (d : List (String × String)) (k v k2 : String) (hne : k2 ≠ k) :
    pyDictGet (pyDictSet d k v) k2 = pyDictGet d k2 := by
  unfold pyDictSet pyDictGet
  by_cases h : d.any (fun kv => kv.1 == k)
  · rw [if_pos h, findSetKey]
    cases hf : d.find? (fun kv => kv.1 == k2) with
    | none => rfl
    | some y =>
      have hy := List.find?_some hf
      have hy2 : y.1 = k2 := by simpa using hy
      have hy3 : ¬ (y.1 = k) := by
        rw [hy2]
        exact hne
      simp [hy3]
  · rw [if_neg h, List.find?_append]
    have hkk : List.find? (fun kv => kv.1 == k2) [(k, v)] = none := by
      have : (k == k2) = false := by
        simp
        exact fun he => hne he.symm
      simp [List.find?, this]
    rw [hkk]
    cases d.find? (fun kv => kv.1 == k2) <;> rfl

/-- C9 counterexample: an unrecognized difficulty level is not dropped but
coerced: clamping constraints whose difficulty dict is `level = "EXTREME"`
yields `level = "EASY"` and `effort_profile = "LOW"`, values that were not
present in the input. -/
theorem c9_unrecognized_difficulty_coerced :
    (clampEnums (some ⟨some [], some [("level", "EXTREME")], none, none,
        none, none, none, none, none⟩)).map (fun v => v.difficulty)
      = some (some [("level", "EASY"), ("effort_profile", "LOW")])
    ∧ SUPPORTED_DIFFICULTY.contains "EXTREME" = false
    ∧ ("EASY" : String) ≠ "EXTREME" := by
  exact ⟨by decide, by decide, by decide⟩

/-- C9 amended: the list-valued enumerated fields (trip types, transport
modes, lodging types, amenities) hold exactly the recognized values of the
input (unrecognized values dropped, nothing added); an unrecognized
difficulty level is instead reset to the defaults `EASY`/`LOW` rather than
dropped. -/
theorem c9_enum_lists_filtered_difficulty_defaulted :
    ∀ (v w : ConstraintsModel), clampEnums (some v) = some w →
      ((∀ x, x ∈ w.trip_types.getD [] ↔ x ∈ v.trip_types.getD [] ∧ x ∈ SUPPORTED_TRIP_TYPES)
       ∧ (∀ t u, v.transport = some t → w.transport = some u →
            ∀ x, x ∈ u.allowed.getD [] ↔ x ∈ t.allowed.getD [] ∧ x ∈ SUPPORTED_TRAVEL_MODES)
       ∧ (∀ l u, v.lodging = some l → w.lodging = some u →
            (∀ x, x ∈ u.types.getD [] ↔ x ∈ l.types.getD [] ∧ x ∈ SUPPORTED_ACCOM)
            ∧ (∀ x, x ∈ u.amenities_prefer.getD []
                 ↔ x ∈ l.amenities_prefer.getD [] ∧ x ∈ SUPPORTED_AMENITIES))
       ∧ (∀ lvl, (pyDictGet (v.difficulty.getD []) "level").getD "EASY" = lvl →
            lvl ∉ SUPPORTED_DIFFICULTY →
            pyDictGet (w.difficulty.getD []) "level" = some "EASY"
            ∧ pyDictGet (w.difficulty.getD []) "effort_profile" = some "LOW")) := by
  intro v w h
  simp only [clampEnums, Option.some.injEq] at h
  subst h
  refine ⟨?_, ?_, ?_, ?_⟩
  · intro x
    simp [List.mem_filter]
  · intro t u ht hu x
    rw [ht] at hu
    simp only [Option.map_some', Option.some.injEq] at hu
    subst hu
    simp [List.mem_filter]
  · intro l u hl hu
    rw [hl] at hu
    simp only [Option.map_some', Option.some.injEq] at hu
    subst hu
    constructor <;> intro x <;> simp [List.mem_filter]
  · intro lvl hlvl hnot
    have hc : SUPPORTED_DIFFICULTY.contains lvl = false := by
      cases hcc : SUPPORTED_DIFFICULTY.contains lvl
      · rfl
      · exact absurd (by simpa using hcc) hnot
    simp only [Option.getD_some]
    rw [hlvl, hc]
    simp only [Bool.not_false, if_true]
    constructor
    · rw [pyDictGet_set_other _ _ _ _ (by decide), pyDictGet_set_same]
    · rw [pyDictGet_set_same]

/-- C9 witness: the amended statement applied at concrete constraints with
one unrecognized value per field. -/
theorem c9_enum_clamp_witness :
    (("CAMPING" : String)
        ∈ (ConstraintsModel.mk (some ["CAMPING"])
            (some [("level", "EASY"), ("effort_profile", "LOW")])
            (some ⟨some ["CAR"], none, none⟩) (some ⟨some ["HOTEL"], none, some ["POOL"]⟩)
            none none none none none).trip_types.getD []
      ↔ ("CAMPING" : String)
          ∈ (ConstraintsModel.mk (some ["CAMPING", "SKYDIVE"])
              (some [("level", "NIGHTMARE")])
              (some ⟨some ["CAR", "PLANE"], none, none⟩)
              (some ⟨some ["HOTEL", "IGLOO"], none, some ["POOL", "SAUNA"]⟩)
              none none none none none).trip_types.getD []
        ∧ ("CAMPING" : String) ∈ SUPPORTED_TRIP_TYPES)
    ∧ pyDictGet ((ConstraintsModel.mk (some ["CAMPING"])
          (some [("level", "EASY"), ("effort_profile", "LOW")])
          (some ⟨some ["CAR"], none, none⟩) (some ⟨some ["HOTEL"], none, some ["POOL"]⟩)
          none none none none none).difficulty.getD []) "level" = some "EASY"
    ∧ pyDictGet ((ConstraintsModel.mk (some ["CAMPING"])
          (some [("level", "EASY"), ("effort_profile", "LOW")])
          (some ⟨some ["CAR"], none, none⟩) (some ⟨some ["HOTEL"], none, some ["POOL"]⟩)
          none none none none none).difficulty.getD []) "effort_profile" = some "LOW" := by
  have h := c9_enum_lists_filtered_difficulty_defaulted
    (ConstraintsModel.mk (some ["CAMPING", "SKYDIVE"]) (some [("level", "NIGHTMARE")])
      (some ⟨some ["CAR", "PLANE"], none, none⟩)
      (some ⟨some ["HOTEL", "IGLOO"], none, some ["POOL", "SAUNA"]⟩)
      none none none none none)
    (ConstraintsModel.mk (some ["CAMPING"])
      (some [("level", "EASY"), ("effort_profile", "LOW")])
      (some ⟨some ["CAR"], none, none⟩) (some ⟨some ["HOTEL"], none, some ["POOL"]⟩)
      none none none none none)
    (by decide)
  exact ⟨h.1 "CAMPING", (h.2.2.2 "NIGHTMARE" (by decide) (by decide)).1,
         (h.2.2.2 "NIGHTMARE" (by decide) (by decide)).2⟩

theorem pyOrInt_ne_zero (a : Option Int) (b : Int) (hb : b ≠ 0) : pyOrInt a b ≠ 0 := by
  unfold pyOrInt
  cases a with
  | none => exact hb
  | some n =>
    by_cases hn : n = 0
    · simp [hn, hb]
    · simp [hn]

/-- The `or`-chain `time.days or constraints.duration_days or 3` can never
produce zero: falsy links fall through and the terminal default is 3. -/
theorem ruleDays_ne_zero (cp : CtxPack) : ruleDays cp ≠ 0 :=
  pyOrInt_ne_zero _ _ (pyOrInt_ne_zero _ _ (by decide))

/-- Every rule-based plan satisfies the Trip Plan invariant: the `days = 0`
branch is vacuous because the days chain never yields zero, and the
itinerary is built as one entry per element of `range(days)` carrying
`day = index + 1`. -/
theorem rulePlanInvariant (gc : Grounded) (cp : CtxPack) :
    planInvariant (ruleBasedPlan gc cp) := by
  constructor
  · intro h0
    have hd : ruleDays cp = 0 := Option.some.inj h0
    exact absurd hd (ruleDays_ne_zero cp)
  · intro n hn hdays
    have hd : ruleDays cp = n := Option.some.inj hdays
    refine ⟨(List.range (ruleDays cp).toNat).map
        (ruleDayPlan (destinationNameOf cp) (ruleDays cp)
          (pySliceTo (gc.pois.getD []) (ruleDays cp * 3))), rfl, ?_, ?_⟩
    · simp only [List.length_map, List.length_range]
      rw [hd]
      exact Int.toNat_of_nonneg (by omega)
    · intro i h2
      simp only [List.getElem_map, List.getElem_range]
      rfl

/-- C1 counterexample: on the primary path `generate_plan` returns the
model's JSON with only identity fields backfilled, so a parsed response of
type `trip_plan` with `days = 2` and an empty itinerary is returned as-is
and violates the invariant the claim asserts for every produced plan. -/
theorem c1_primary_path_plan_violates_invariant :
    ¬ planInvariant (generatePlan true
      (GeminiOutcome.parsed (Json.obj [("type", Json.str "trip_plan"),
        ("days", Json.num 2), ("itinerary", Json.arr [])]))
      ⟨none, none, none⟩ ⟨none, none, none, none, none, none⟩) := by
  intro hinv
  obtain ⟨l, hl, hlen, _⟩ := hinv.2 2 (by norm_num) (by rfl)
  have h1 : some ([] : List Json) = some l := by
    rw [← hl]
    rfl
  obtain rfl := (Option.some.inj h1).symm
  simp at hlen

/-- C1 amended: every plan produced by the rule-based fallback path
satisfies the invariant (`days = 0` implies an empty itinerary, vacuously,
since the fallback days chain never yields zero; `days = N >= 1` gives
exactly `N` entries numbered `1..N`); the primary path performs no such
validation. -/
theorem c1_fallback_plans_satisfy_invariant :
    ∀ (gc : Grounded) (cp : CtxPack), planInvariant (ruleBasedPlan gc cp) :=
  rulePlanInvariant

/-- C1 witness: the amended statement at one concrete grounded context and
context pack. -/
theorem c1_fallback_plans_satisfy_invariant_witness :
    planInvariant (ruleBasedPlan
      ⟨some [⟨some "Beach walk", none, some "A stroll.", none, some ["SCENIC"], none⟩],
       some [⟨some "Inn", some "HOTEL", some "Center", none, none, none⟩],
       some ⟨some "Sunny", none⟩⟩
      ⟨some "t1", some "m1", some "recap", none, none, some ⟨some 2⟩⟩) :=
  c1_fallback_plans_satisfy_invariant _ _

/-- C2: whenever the Gemini call raises or its response cannot be turned
into a trip plan (`geminiPlan` yields `none`, covering call exceptions,
empty/unparsable response text and parsed JSON without a usable plan
object), `generate_plan` returns the deterministic rule-based plan, which is
structurally valid; the embedded `generate_plan` is total, so no exception
escapes it. -/
theorem c2_generation_failure_uses_fallback :
    ∀ (o : GeminiOutcome) (gc : Grounded) (cp : CtxPack),
      geminiPlan cp o = none →
      generatePlan true o gc cp = ruleBasedPlan gc cp
      ∧ planInvariant (generatePlan true o gc cp) := by
  intro o gc cp h
  have he : generatePlan true o gc cp = ruleBasedPlan gc cp := by
    show (match geminiPlan cp o with
      | some p => p
      | none => ruleBasedPlan gc cp) = ruleBasedPlan gc cp
    rw [h]
  exact ⟨he, he ▸ rulePlanInvariant gc cp⟩

/-- C2 witness: the statement at a concrete failing call outcome. -/
theorem c2_generation_failure_uses_fallback_witness :
    geminiPlan ⟨some "t9", none, none, none, none, none⟩ GeminiOutcome.callError = none
    ∧ (generatePlan true GeminiOutcome.callError ⟨none, none, none⟩
          ⟨some "t9", none, none, none, none, none⟩
        = ruleBasedPlan ⟨none, none, none⟩ ⟨some "t9", none, none, none, none, none⟩
       ∧ planInvariant (generatePlan true GeminiOutcome.callError ⟨none, none, none⟩
          ⟨some "t9", none, none, none, none, none⟩)) :=
  ⟨rfl, c2_generation_failure_uses_fallback GeminiOutcome.callError
    ⟨none, none, none⟩ ⟨some "t9", none, none, none, none, none⟩ rfl⟩

/-- Any destination produced by the `_TO_ONLY_RE.finditer` loop passed the
place-name validation. -/
theorem toOnlyScanGo_valid (re0 : RE) :
    ∀ (fuel : Nat) (pv : Option Char) (rest : List Char) (d : String),
      toOnlyScanGo re0 fuel pv rest = some d → isValidPlaceName (some d) = true := by
  intro fuel
  induction fuel with
  | zero =>
    intro pv rest d h
    simp [toOnlyScanGo] at h
  | succ f ih =>
    intro pv rest d h
    unfold toOnlyScanGo at h
    cases h1 : searchLoop re0 pv rest rest.length with
    | none =>
      rw [h1] at h
      exact absurd h (by simp)
    | some res =>
      rw [h1] at h
      dsimp only at h
      cases h2 : groupStr res.groups 1 with
      | none =>
        rw [h2] at h
        exact absurd h (by simp)
      | some g =>
        rw [h2] at h
        dsimp only at h
        by_cases hv : isValidPlaceName (some (cleanPlace g)) = true
        · rw [if_pos hv] at h
          obtain rfl := (Option.some.inj h).symm
          exact hv
        · rw [if_neg hv] at h
          exact ih _ _ _ h

theorem toOnlyScan_valid (t : String) (d : String) (h : toOnlyScan t = some d) :
    isValidPlaceName (some d) = true :=
  toOnlyScanGo_valid _ _ _ _ _ h

/-- A name passing `_is_valid_place_name` is nonempty. -/
theorem validPlace_ne_empty (d : String) (h : isValidPlaceName (some d) = true) :
    d ≠ "" := by
  intro he
  subst he
  exact absurd h (by decide)

/-- The strong route branches assign a destination without consulting the
accumulated anchor state: if `strongDestOf` finds `d`, then processing the
message from any state yields destination `d`. -/
theorem routeUpdate_strong_dest (st : Anchors) (t : String) (d : String)
    (h : strongDestOf t = some d) : (routeUpdate st t).destination_name = some d := by
  unfold strongDestOf at h
  unfold routeUpdate
  cases h1 : searchGroups12 toFromRe t with
  | some g =>
    obtain ⟨g1, g2⟩ := g
    rw [h1] at h
    dsimp only at h
    by_cases hv : isValidPlaceName (some (cleanPlace g1)) = true
    · rw [if_pos hv] at h
      dsimp only
      rw [if_pos hv]
      exact h
    · rw [if_neg hv] at h
      exact absurd h (by simp)
  | none =>
    rw [h1] at h
    dsimp only at h
    cases h2 : searchGroups12 fromToRe t with
    | some g =>
      obtain ⟨g1, g2⟩ := g
      rw [h2] at h
      dsimp only at h
      by_cases hv : isValidPlaceName (some (cleanPlace g2)) = true
      · rw [if_pos hv] at h
        dsimp only
        rw [if_pos hv]
        exact h
      · rw [if_neg hv] at h
        exact absurd h (by simp)
    | none =>
      rw [h2] at h
      dsimp only at h
      have hval := toOnlyScan_valid t d h
      have hne := validPlace_ne_empty d hval
      have htr : pyTruthyStr (some d) = true := by
        simp [pyTruthyStr, hne]
      dsimp only
      rw [h]
      simp [htr]

/-- Lifting `routeUpdate_strong_dest` through the whole per-message step. -/
theorem stepMsg_strong_dest (st : Anchors) (m : ChatMsg) (d : String)
    (h : strongDestMsg m = some d) : (stepMsg st m).destination_name = some d := by
  unfold strongDestMsg at h
  unfold stepMsg
  by_cases hu : isUserMsg m = true
  · rw [hu] at h ⊢
    simp only [Bool.not_true] at h ⊢
    rw [if_neg (by simp)] at h ⊢
    by_cases ht : pyStripWs (m.text.getD "") = ""
    · rw [if_pos ht] at h
      exact absurd h (by simp)
    · rw [if_neg ht] at h
      rw [if_neg ht]
      exact routeUpdate_strong_dest _ _ d h
  · have hu2 : isUserMsg m = false := by
      cases h3 : isUserMsg m
      · rfl
      · exact absurd h3 hu
    rw [hu2] at h
    simp at h

/-- C7 counterexample: both turns specify a destination (each yields one
when extracted alone), the destinations differ, yet the extraction over the
whole history keeps the earlier one: the later turn's destination comes from
the weak `visit X` fallback, which only applies when no destination is set
yet, so it cannot overwrite. -/
theorem c7_later_weak_destination_does_not_win :
    perMsgDest ⟨some "user", some "to Paris"⟩ = some "Paris"
    ∧ perMsgDest ⟨some "user", some "visit Rome"⟩ = some "Rome"
    ∧ ("Paris" : String) ≠ "Rome"
    ∧ (deriveAnchorsFromChat [⟨some "user", some "to Paris"⟩,
        ⟨some "user", some "visit Rome"⟩]).destination_name = some "Paris"
    ∧ (deriveAnchorsFromChat [⟨some "user", some "to Paris"⟩,
        ⟨some "user", some "visit Rome"⟩]).destination_name ≠ some "Rome" := by
  exact ⟨by decide, by decide, by decide, by decide, by decide⟩

/-- C7 amended: for two user turns that each specify a destination, with the
destinations different, the extracted destination equals the later turn's
destination provided the later turn specifies it through the strong route
patterns (`to X from Y` / `from X to Y` / `to X`); a destination found only
by the weak fallback patterns (`in X` / `for X` / `visit X`) does not
overwrite an earlier one. -/
theorem c7_later_strong_destination_wins :
    ∀ (m1 m2 : ChatMsg) (d1 d2 : String),
      perMsgDest m1 = some d1 → strongDestMsg m2 = some d2 → d1 ≠ d2 →
      (deriveAnchorsFromChat [m1, m2]).destination_name = some d2 := by
  intro m1 m2 d1 d2 _ h2 _
  show (stepMsg (stepMsg initAnchors m1) m2).destination_name = some d2
  exact stepMsg_strong_dest _ m2 d2 h2

/-- C7 witness: the amended statement at two concrete turns both using the
strong `to X` pattern. -/
theorem c7_later_strong_destination_wins_witness :
    (deriveAnchorsFromChat [⟨some "user", some "to Paris"⟩,
        ⟨some "user", some "to Rome"⟩]).destination_name = some "Rome" :=
  c7_later_strong_destination_wins ⟨some "user", some "to Paris"⟩
    ⟨some "user", some "to Rome"⟩ "Paris" "Rome" (by decide) (by decide) (by decide)
